import Mathlib

/-!
Shallow embedding of the LogicPals prompt control layer
(`assembler/prompt_control_layer.js`, production variant) and proofs of the
gating, ordering and validation properties claimed for it.

JavaScript idioms are modelled explicitly:
  * missing object fields are `Option`;
  * string truthiness (`!s` is true for `undefined` and `""`) is `jsTruthy`;
  * number truthiness (`0` is falsy) is an explicit `== 0` test;
  * `a || b` defaulting on strings is `jsOr`;
  * thrown `Error(message)` values are an `Except` error type recording the
    throw site together with the exact message text.
-/

namespace LogicPals

/-- JS string truthiness for an optional string field: `undefined` and `""`
are falsy, every other string is truthy. -/
def jsTruthy (o : Option String) : Bool :=
  match o with
  | none => false
  | some s => !(s == "")

/-- JS `o || d` defaulting for an optional string field. -/
def jsOr (o : Option String) (d : String) : String :=
  if jsTruthy o then o.getD "" else d

/-- JS `String.prototype.toUpperCase` (ASCII content only, as used here). -/
def jsToUpperCase (s : String) : String := ⟨s.data.map Char.toUpper⟩

/-- Character-list test: does `pattern` start the list `s`? -/
def charsStartWith : List Char → List Char → Bool
  | _, [] => true
  | [], _ :: _ => false
  | a :: as, b :: bs => a == b && charsStartWith as bs

/-- Character-list test: does `pattern` occur inside `s`? -/
def charsHaveInfix : List Char → List Char → Bool
  | [], pattern => pattern.isEmpty
  | c :: rest, pattern => charsStartWith (c :: rest) pattern || charsHaveInfix rest pattern

/-- JS `String.prototype.includes`. -/
def jsIncludes (s pattern : String) : Bool := charsHaveInfix s.data pattern.data

/-! ## Data model: requests -/

/-- The `problem` object of an assembly request (Step 1 DB fields). -/
structure Problem where
  id : Option String := none
  statement : Option String := none
  archetype : Option String := none
  skill_track : Option String := none
  hints : Option (List String) := none
  answer_key : Option String := none
  solution : Option String := none
deriving DecidableEq, Repr

/-- The `studentState` object of an assembly request. -/
structure StudentState where
  level : Option String := none
  age : Option Nat := none
  attempts_on_this_archetype : Option Nat := none
deriving DecidableEq, Repr

/-- The `config` argument of `assemblePrompt`. -/
structure AssembleConfig where
  tier : Option String := none
  mode : Option String := none
  attempt_state : Option String := none
  problem : Option Problem := none
  studentState : Option StudentState := none
deriving DecidableEq, Repr

/-! ## Data model: policy tables (loaded from JSON at process start) -/

/-- One entry of a prompt JSON table; `content` is the instruction-line list. -/
structure PromptFile where
  content : Option (List String) := none
deriving DecidableEq, Repr

/-- The `response_templates.json` table (or its built-in fallback). -/
structure ResponseTemplates where
  active_v1 : Option (List String) := none
  submitted_v1 : Option (List String) := none
  review_v1 : Option (List String) := none
deriving DecidableEq, Repr

/-- The static tables the module loads at require-time: system prompt,
tier prompts, mode prompts and response templates. -/
structure PromptEnv where
  SYSTEM_PROMPT : PromptFile
  TIER_PROMPTS : String → Option PromptFile
  MODE_PROMPTS : String → Option PromptFile
  RESPONSE_TEMPLATES : ResponseTemplates

/-! ## Data model: results and errors -/

/-- One element of the `chat_messages` array. -/
structure ChatMessage where
  role : String
  content : String
deriving DecidableEq, Repr

/-- The `components` field of an assembled prompt. -/
structure PromptComponents where
  system : String
  developer : List String
  response_template : String
  context : String
deriving DecidableEq, Repr

/-- The backward-compatible `messages` field. -/
structure FlattenedMessages where
  system : String
  role : String
deriving DecidableEq, Repr

/-- The `metadata` field of an assembled prompt. -/
structure PromptMetadata where
  tier : String
  mode : String
  attempt_state : String
  problem_id : String
  archetype : String
  skill_track : String
  student_level : String
  hints_allowed : Nat
  answer_included : Bool
  response_template_version : String
deriving DecidableEq, Repr

/-- The result object of `assemblePrompt`. -/
structure AssembledPrompt where
  components : PromptComponents
  messages : FlattenedMessages
  chat_messages : List ChatMessage
  metadata : PromptMetadata
deriving DecidableEq, Repr

/-- Every `throw new Error(msg)` site of the module, with its dynamic data. -/
inductive AssembleError where
  | missingAttemptState : AssembleError
  | missingParams : AssembleError
  | invalidTier (tier : String) : AssembleError
  | invalidMode (mode : String) : AssembleError
  | invalidAttemptState (attempt_state : String) : AssembleError
  | tierPromptNotFound (key : String) : AssembleError
  | modePromptNotFound (key : String) : AssembleError
deriving DecidableEq, Repr

def validTiers : List String := ["warmup", "standard", "challenge", "contest", "elite"]

def validModes : List String := ["bootcamp", "mixed", "mock"]

def validStates : List String := ["active", "submitted", "review"]

/-- The exact message text carried by each thrown `Error`. -/
def AssembleError.message : AssembleError → String
  | .missingAttemptState =>
      "Missing required parameter: attempt_state (must be \"active\", \"submitted\", or \"review\")"
  | .missingParams => "Missing required parameters: tier, mode, problem"
  | .invalidTier tier =>
      "Invalid tier: " ++ tier ++ ". Must be one of: " ++ String.intercalate ", " validTiers
  | .invalidMode mode =>
      "Invalid mode: " ++ mode ++ ". Must be one of: " ++ String.intercalate ", " validModes
  | .invalidAttemptState s =>
      "Invalid attempt_state: " ++ s ++ ". Must be one of: " ++ String.intercalate ", " validStates
  | .tierPromptNotFound key => "Tier prompt not found: " ++ key
  | .modePromptNotFound key => "Mode prompt not found: " ++ key

/-- Errors raised by the validation block at the top of `assemblePrompt`
(bad caller input). -/
def AssembleError.isValidationError : AssembleError → Bool
  | .missingAttemptState => true
  | .missingParams => true
  | .invalidTier _ => true
  | .invalidMode _ => true
  | .invalidAttemptState _ => true
  | .tierPromptNotFound _ => false
  | .modePromptNotFound _ => false

/-- Errors raised by `buildDeveloperPrompts` when a policy table has no entry
for a resolved key (system misconfiguration). -/
def AssembleError.isConfigurationError : AssembleError → Bool
  | .tierPromptNotFound _ => true
  | .modePromptNotFound _ => true
  | _ => false

/-! ## The operations -/

/-- `getGatedHints(tier, mode, attempt_state, hints)`: gate hints by tier,
mode and attempt state before assembly. -/
def getGatedHints (tier mode attempt_state : String) (hints : List String) :
    List String :=
  -- Rule 1: No hints if attempt is not active
  if attempt_state != "active" then []
  -- Rule 2: Contest and Elite NEVER get hints during active attempt
  else if tier == "contest" || tier == "elite" then []
  -- Rule 3: Mock mode in Contest/Elite never gets hints
  else if mode == "mock" && (tier == "contest" || tier == "elite") then []
  -- Rule 4: Otherwise, hints are allowed
  else hints

/-- `buildSystemPrompt()`: join the system prompt content lines. -/
def buildSystemPrompt (env : PromptEnv) : String :=
  String.intercalate "\n" (env.SYSTEM_PROMPT.content.getD [])

/-- `buildDeveloperPrompts(tier, mode)`: look up the tier and mode prompt
table entries; a missing entry throws. -/
def buildDeveloperPrompts (env : PromptEnv) (tier mode : String) :
    Except AssembleError (List String) :=
  let tierPromptKey := "tier_" ++ tier ++ "_v1"
  match env.TIER_PROMPTS tierPromptKey with
  | none => .error (.tierPromptNotFound tierPromptKey)
  | some tierPrompt =>
    let modePromptKey := "mode_" ++ mode ++ "_v1"
    match env.MODE_PROMPTS modePromptKey with
    | none => .error (.modePromptNotFound modePromptKey)
    | some modePrompt =>
      .ok [String.intercalate "\n" (tierPrompt.content.getD []),
           String.intercalate "\n" (modePrompt.content.getD [])]

/-- The hard-coded safe default used when `RESPONSE_TEMPLATES.active_v1` is
also missing. -/
def safeFallbackTemplate : List String :=
  ["OUTPUT RULES:", "- Do not reveal final answer.", "- Ask one helpful question."]

/-- `buildResponseTemplate(attempt_state)`: state-specific template when
available, otherwise the safest fallback. -/
def buildResponseTemplate (templates : ResponseTemplates) (attempt_state : String) :
    String :=
  if attempt_state == "active" && templates.active_v1.isSome then
    String.intercalate "\n" (templates.active_v1.getD [])
  else if attempt_state == "submitted" && templates.submitted_v1.isSome then
    String.intercalate "\n" (templates.submitted_v1.getD [])
  else if attempt_state == "review" && templates.review_v1.isSome then
    String.intercalate "\n" (templates.review_v1.getD [])
  else
    String.intercalate "\n" (templates.active_v1.getD safeFallbackTemplate)

/-- `getResponseTemplateVersion(attempt_state)`. -/
def getResponseTemplateVersion (attempt_state : String) : String :=
  if attempt_state == "active" then "active_v1"
  else if attempt_state == "submitted" then "submitted_v1"
  else if attempt_state == "review" then "review_v1"
  else "active_v1"

/-- `buildContextPrompt`: the pushed line array, before the final join.
Each `++` block corresponds to one `context.push` block of the source. -/
def buildContextLines (problem : Problem) (studentState : Option StudentState)
    (attempt_state : String) (allowedHints : List String) : List String :=
  ["PROBLEM CONTEXT:", ""]
  ++ (if jsTruthy problem.statement then
        ["Problem Statement:", problem.statement.getD "", ""]
      else [])
  ++ (if jsTruthy problem.archetype then
        ["Internal Archetype: " ++ problem.archetype.getD "",
         "(Use this to guide hint strategy, but do not mention archetype name to student)",
         ""]
      else [])
  ++ (if jsTruthy problem.skill_track then
        ["Skill Track: " ++ problem.skill_track.getD "", ""]
      else [])
  ++ (match studentState with
      | none => []
      | some st =>
        ["STUDENT CONTEXT:", ""]
        ++ (if jsTruthy st.level then ["Student Level: " ++ st.level.getD ""] else [])
        ++ (match st.age with
            | some a => if a == 0 then [] else ["Age: " ++ toString a ++ " years"]
            | none => [])
        ++ (match st.attempts_on_this_archetype with
            | some n => ["Previous attempts on this archetype: " ++ toString n]
            | none => [])
        ++ [""])
  ++ (if attempt_state == "active" && allowedHints.length != 0 then
        ["AVAILABLE HINTS:", "(Use these ONLY when appropriate per tier rules)"]
        ++ allowedHints.mapIdx (fun index hint =>
             "Hint " ++ toString (index + 1) ++ ": " ++ hint)
        ++ [""]
      else [])
  ++ (if attempt_state == "review" && jsTruthy problem.answer_key then
        ["ANSWER & SOLUTION (REVIEW MODE):",
         "(Student has submitted their attempt. You may now provide full explanation)",
         "",
         "Correct Answer: " ++ problem.answer_key.getD ""]
        ++ (if jsTruthy problem.solution then
              ["", "Solution Steps:", problem.solution.getD ""]
            else [])
        ++ [""]
      else [])
  ++ (["ATTEMPT STATE: " ++ jsToUpperCase attempt_state]
      ++ (if attempt_state == "active" then
            ["(Student is actively working on this problem - follow tier rules strictly)"]
          else if attempt_state == "submitted" then
            ["(Student has submitted - acknowledge briefly; wait for review mode for full explanation)"]
          else if attempt_state == "review" then
            ["(Review mode - provide complete explanation with answer and solution)"]
          else []))

/-- `buildContextPrompt(problem, studentState, attempt_state, allowedHints)`. -/
def buildContextPrompt (problem : Problem) (studentState : Option StudentState)
    (attempt_state : String) (allowedHints : List String) : String :=
  String.intercalate "\n" (buildContextLines problem studentState attempt_state allowedHints)

/-- `assemblePrompt(config)`: validate, gate, build all layers, and return the
structured result.  The combined JS check `!tier || !mode || !problem` is split
into a `problem` match plus the `tier`/`mode` truthiness test; all three raise
the same error, so the behaviour is unchanged. -/
def assemblePrompt (env : PromptEnv) (config : AssembleConfig) :
    Except AssembleError AssembledPrompt :=
  if !(jsTruthy config.attempt_state) then
    .error .missingAttemptState
  else
    match config.problem with
    | none => .error .missingParams
    | some problem =>
      if !(jsTruthy config.tier) || !(jsTruthy config.mode) then
        .error .missingParams
      else
        let tier := config.tier.getD ""
        let mode := config.mode.getD ""
        let attempt_state := config.attempt_state.getD ""
        if !(validTiers.contains tier) then
          .error (.invalidTier tier)
        else if !(validModes.contains mode) then
          .error (.invalidMode mode)
        else if !(validStates.contains attempt_state) then
          .error (.invalidAttemptState attempt_state)
        else
          let allowedHints := getGatedHints tier mode attempt_state (problem.hints.getD [])
          let systemPrompt := buildSystemPrompt env
          match buildDeveloperPrompts env tier mode with
          | .error e => .error e
          | .ok developerPrompts =>
            let responseTemplate := buildResponseTemplate env.RESPONSE_TEMPLATES attempt_state
            let contextPrompt :=
              buildContextPrompt problem config.studentState attempt_state allowedHints
            let flattenedSystem := String.intercalate "\n\n"
              ([systemPrompt] ++ developerPrompts ++ [responseTemplate, contextPrompt])
            .ok {
              components := {
                system := systemPrompt
                developer := developerPrompts
                response_template := responseTemplate
                context := contextPrompt }
              messages := { system := flattenedSystem, role := "system" }
              chat_messages := [
                { role := "system", content := systemPrompt },
                { role := "system", content := String.intercalate "\n\n" developerPrompts },
                { role := "system", content := responseTemplate },
                { role := "user", content := contextPrompt } ]
              metadata := {
                tier := tier
                mode := mode
                attempt_state := attempt_state
                problem_id := jsOr problem.id "unknown"
                archetype := jsOr problem.archetype "unknown"
                skill_track := jsOr problem.skill_track "unknown"
                student_level := jsOr (config.studentState.bind StudentState.level) "unknown"
                hints_allowed := allowedHints.length
                answer_included := attempt_state == "review"
                response_template_version := getResponseTemplateVersion attempt_state } }

/-! ## Spec-side layout sections

The specification describes the context block as a fixed-order sequence of
sections.  The sections are written out here as standalone definitions, to be
compared with the line array the source builds. -/

/-- JS `String.prototype.startsWith`. -/
def jsStartsWith (s pattern : String) : Bool := charsStartWith s.data pattern.data

def problemHeaderLines : List String := ["PROBLEM CONTEXT:", ""]

/-- Problem statement section: present when the statement is a non-empty string. -/
def statementSectionLines (problem : Problem) : List String :=
  if jsTruthy problem.statement then
    ["Problem Statement:", problem.statement.getD "", ""]
  else []

/-- Archetype section, flagged internal-only. -/
def archetypeSectionLines (problem : Problem) : List String :=
  if jsTruthy problem.archetype then
    ["Internal Archetype: " ++ problem.archetype.getD "",
     "(Use this to guide hint strategy, but do not mention archetype name to student)",
     ""]
  else []

/-- Skill-track section, present when the field is a non-empty string. -/
def skillTrackSectionLines (problem : Problem) : List String :=
  if jsTruthy problem.skill_track then
    ["Skill Track: " ++ problem.skill_track.getD "", ""]
  else []

/-- Student-context section, present when `studentState` is supplied. -/
def studentSectionLines (studentState : Option StudentState) : List String :=
  match studentState with
  | none => []
  | some st =>
    ["STUDENT CONTEXT:", ""]
    ++ (if jsTruthy st.level then ["Student Level: " ++ st.level.getD ""] else [])
    ++ (match st.age with
        | some a => if a == 0 then [] else ["Age: " ++ toString a ++ " years"]
        | none => [])
    ++ (match st.attempts_on_this_archetype with
        | some n => ["Previous attempts on this archetype: " ++ toString n]
        | none => [])
    ++ [""]

/-- AVAILABLE HINTS section: present only during an active attempt with a
non-empty gated hint list. -/
def hintsSectionLines (attempt_state : String) (allowedHints : List String) :
    List String :=
  if attempt_state == "active" && allowedHints.length != 0 then
    ["AVAILABLE HINTS:", "(Use these ONLY when appropriate per tier rules)"]
    ++ allowedHints.mapIdx (fun index hint =>
         "Hint " ++ toString (index + 1) ++ ": " ++ hint)
    ++ [""]
  else []

/-- ANSWER & SOLUTION section: present only in review state with a truthy
answer key. -/
def answerSectionLines (attempt_state : String) (problem : Problem) : List String :=
  if attempt_state == "review" && jsTruthy problem.answer_key then
    ["ANSWER & SOLUTION (REVIEW MODE):",
     "(Student has submitted their attempt. You may now provide full explanation)",
     "",
     "Correct Answer: " ++ problem.answer_key.getD ""]
    ++ (if jsTruthy problem.solution then
          ["", "Solution Steps:", problem.solution.getD ""]
        else [])
    ++ [""]
  else []

/-- Trailing attempt-state banner with its three fixed wordings. -/
def bannerSectionLines (attempt_state : String) : List String :=
  ["ATTEMPT STATE: " ++ jsToUpperCase attempt_state]
  ++ (if attempt_state == "active" then
        ["(Student is actively working on this problem - follow tier rules strictly)"]
      else if attempt_state == "submitted" then
        ["(Student has submitted - acknowledge briefly; wait for review mode for full explanation)"]
      else if attempt_state == "review" then
        ["(Review mode - provide complete explanation with answer and solution)"]
      else [])

/-- The response-template table entry the state-specific branch of
`buildResponseTemplate` consults for a given attempt state. -/
def templateEntryFor (templates : ResponseTemplates) (attempt_state : String) :
    Option (List String) :=
  if attempt_state == "active" then templates.active_v1
  else if attempt_state == "submitted" then templates.submitted_v1
  else if attempt_state == "review" then templates.review_v1
  else none

/-- The result object of `validatePromptAssembly`. -/
structure ValidationResult where
  valid : Bool
  errors : List String
  warnings : List String
deriving DecidableEq, Repr

/-- `validatePromptAssembly(assembled)`.  On a typed `AssembledPrompt` the
`components`, `chat_messages` and `metadata` objects are always present, so
the corresponding presence checks and warnings never fire; string emptiness
checks (JS falsiness of `""`) do remain.  `valid` starts `true` and is set
`false` by every error push, hence it equals emptiness of the error list. -/
def validatePromptAssembly (assembled : AssembledPrompt) : ValidationResult :=
  let errors :=
    (if assembled.components.system == "" then ["Missing system prompt"] else [])
    ++ (if assembled.components.response_template == "" then
          ["Missing response template layer"]
        else [])
    ++ (if !(jsIncludes assembled.components.system "Never reveal the final answer") then
          ["System prompt missing answer leakage prevention"]
        else [])
    ++ (if (assembled.metadata.tier == "contest" || assembled.metadata.tier == "elite")
           && assembled.metadata.attempt_state == "active"
           && assembled.metadata.hints_allowed != 0 then
          ["CRITICAL: Contest/Elite tier has hints during active attempt"]
        else [])
    ++ (if assembled.metadata.attempt_state != "review" && assembled.metadata.answer_included then
          ["CRITICAL: Answer included during non-review state"]
        else [])
  { valid := errors.isEmpty, errors := errors, warnings := [] }

/-! ## The success value of `assemblePrompt`, named for reuse in proofs -/

/-- The record `assemblePrompt` returns once validation and both policy
lookups have succeeded. -/
def assembledResult (env : PromptEnv) (config : AssembleConfig)
    (tier mode attempt_state : String) (problem : Problem)
    (developerPrompts : List String) : AssembledPrompt :=
  let allowedHints := getGatedHints tier mode attempt_state (problem.hints.getD [])
  let systemPrompt := buildSystemPrompt env
  let responseTemplate := buildResponseTemplate env.RESPONSE_TEMPLATES attempt_state
  let contextPrompt := buildContextPrompt problem config.studentState attempt_state allowedHints
  let flattenedSystem := String.intercalate "\n\n"
    ([systemPrompt] ++ developerPrompts ++ [responseTemplate, contextPrompt])
  { components := {
      system := systemPrompt
      developer := developerPrompts
      response_template := responseTemplate
      context := contextPrompt }
    messages := { system := flattenedSystem, role := "system" }
    chat_messages := [
      { role := "system", content := systemPrompt },
      { role := "system", content := String.intercalate "\n\n" developerPrompts },
      { role := "system", content := responseTemplate },
      { role := "user", content := contextPrompt } ]
    metadata := {
      tier := tier
      mode := mode
      attempt_state := attempt_state
      problem_id := jsOr problem.id "unknown"
      archetype := jsOr problem.archetype "unknown"
      skill_track := jsOr problem.skill_track "unknown"
      student_level := jsOr (config.studentState.bind StudentState.level) "unknown"
      hints_allowed := allowedHints.length
      answer_included := attempt_state == "review"
      response_template_version := getResponseTemplateVersion attempt_state } }

/-! ## Sample policy tables and requests used by concrete instances -/

/-- A populated policy environment with every valid tier and mode key. -/
def sampleEnv : PromptEnv := {
  SYSTEM_PROMPT := { content := some [
    "You are LogicPals, an olympiad math coach.",
    "Never reveal the final answer during an active attempt." ] }
  TIER_PROMPTS := fun key =>
    if key == "tier_warmup_v1" then some { content := some ["Warmup tier rules."] }
    else if key == "tier_standard_v1" then some { content := some ["Standard tier rules."] }
    else if key == "tier_challenge_v1" then some { content := some ["Challenge tier rules."] }
    else if key == "tier_contest_v1" then some { content := some ["Contest tier rules."] }
    else if key == "tier_elite_v1" then some { content := some ["Elite tier rules."] }
    else none
  MODE_PROMPTS := fun key =>
    if key == "mode_bootcamp_v1" then some { content := some ["Bootcamp mode rules."] }
    else if key == "mode_mixed_v1" then some { content := some ["Mixed mode rules."] }
    else if key == "mode_mock_v1" then some { content := some ["Mock mode rules."] }
    else none
  RESPONSE_TEMPLATES := {
    active_v1 := some ["OUTPUT RULES (ACTIVE ATTEMPT):",
                       "- DO NOT reveal the final answer or full solution."]
    submitted_v1 := some ["OUTPUT RULES (SUBMITTED):", "- Acknowledge submission briefly."]
    review_v1 := some ["OUTPUT RULES (REVIEW MODE):",
                       "- Include final answer and explain reasoning."] } }

/-- A policy environment whose tier and mode tables are empty. -/
def emptyTablesEnv : PromptEnv :=
  { sampleEnv with TIER_PROMPTS := fun _ => none, MODE_PROMPTS := fun _ => none }

/-- A fully populated sample problem. -/
def sampleProblem : Problem := {
  id := some "p1"
  statement := some "What is 2 + 2?"
  archetype := some "arithmetic"
  skill_track := some "numbers"
  hints := some ["Think of pairs.", "Count on your fingers."]
  answer_key := some "4"
  solution := some "2 + 2 = 4." }

/-- An active warmup/bootcamp request with two hints. -/
def cfgActiveWarmup : AssembleConfig := {
  tier := some "warmup"
  mode := some "bootcamp"
  attempt_state := some "active"
  problem := some sampleProblem
  studentState := some { level := some "L1", age := some 9,
                         attempts_on_this_archetype := some 2 } }

/-- An active contest request with hints supplied by the problem. -/
def cfgActiveContest : AssembleConfig :=
  { cfgActiveWarmup with tier := some "contest", mode := some "mixed" }

/-- A mock-mode elite request in submitted state. -/
def cfgMockElite : AssembleConfig :=
  { cfgActiveWarmup with
    tier := some "elite"
    mode := some "mock"
    attempt_state := some "submitted" }

/-- A review-state request. -/
def cfgReview : AssembleConfig :=
  { cfgActiveWarmup with
    tier := some "standard"
    mode := some "mixed"
    attempt_state := some "review" }

/-- A review-state request whose problem has no answer key. -/
def cfgReviewNoKey : AssembleConfig :=
  { cfgReview with problem := some { sampleProblem with answer_key := none } }

/-- An accepted request whose problem carries no statement and no archetype. -/
def cfgBareProblem : AssembleConfig :=
  { cfgActiveWarmup with
    problem := some { hints := some ["One hint."] }
    studentState := none }

/-- A request whose attempt_state and tier are both invalid strings. -/
def cfgBadStateBadTier : AssembleConfig := {
  tier := some "hard"
  mode := some "bootcamp"
  attempt_state := some "grading"
  problem := some sampleProblem
  studentState := none }

/-- Placeholder result used only to destructure `Except` values. -/
def defaultAssembled : AssembledPrompt := {
  components := { system := "", developer := [], response_template := "", context := "" }
  messages := { system := "", role := "system" }
  chat_messages := []
  metadata := { tier := "", mode := "", attempt_state := "", problem_id := "",
                archetype := "", skill_track := "", student_level := "",
                hints_allowed := 0, answer_included := false,
                response_template_version := "" } }

/-- The value assembled for `cfgActiveWarmup`. -/
def resActiveWarmup : AssembledPrompt :=
  (assemblePrompt sampleEnv cfgActiveWarmup).toOption.getD defaultAssembled

/-- The value assembled for `cfgActiveContest`. -/
def resActiveContest : AssembledPrompt :=
  (assemblePrompt sampleEnv cfgActiveContest).toOption.getD defaultAssembled

/-- The value assembled for `cfgMockElite`. -/
def resMockElite : AssembledPrompt :=
  (assemblePrompt sampleEnv cfgMockElite).toOption.getD defaultAssembled

/-- The value assembled for `cfgReview`. -/
def resReview : AssembledPrompt :=
  (assemblePrompt sampleEnv cfgReview).toOption.getD defaultAssembled

/-- The value assembled for `cfgReviewNoKey`. -/
def resReviewNoKey : AssembledPrompt :=
  (assemblePrompt sampleEnv cfgReviewNoKey).toOption.getD defaultAssembled

/-- The value assembled for `cfgBareProblem`. -/
def resBareProblem : AssembledPrompt :=
  (assemblePrompt sampleEnv cfgBareProblem).toOption.getD defaultAssembled

/-- A hand-constructed result that pairs `answer_included = true` with an
active attempt, for exercising the validator. -/
def handBuiltLeakyPrompt : AssembledPrompt :=
  { defaultAssembled with
    metadata := { defaultAssembled.metadata with
                  tier := "warmup"
                  attempt_state := "active"
                  answer_included := true } }

/-- A response-template table whose submitted entry is missing. -/
def templatesNoSubmitted : ResponseTemplates := {
  active_v1 := some ["OUTPUT RULES (ACTIVE ATTEMPT):",
                     "- DO NOT reveal the final answer or full solution."]
  submitted_v1 := none
  review_v1 := some ["OUTPUT RULES (REVIEW MODE):",
                     "- Include final answer and explain reasoning."] }

/-! ## Helper lemmas -/

/-- Success inversion for `assemblePrompt`: an accepted request has truthy,
enumerated fields and its result is `assembledResult` at those fields. -/
lemma assemblePrompt_ok_elim (env : PromptEnv) (config : AssembleConfig)
    (r : AssembledPrompt) (h : assemblePrompt env config = .ok r) :
    ∃ tier mode attempt_state problem developerPrompts,
      config.tier = some tier ∧ config.mode = some mode ∧
      config.attempt_state = some attempt_state ∧ config.problem = some problem ∧
      validTiers.contains tier = true ∧ validModes.contains mode = true ∧
      validStates.contains attempt_state = true ∧
      buildDeveloperPrompts env tier mode = .ok developerPrompts ∧
      r = assembledResult env config tier mode attempt_state problem developerPrompts := by
  unfold assemblePrompt at h
  split at h
  · exact Except.noConfusion h
  next h1 =>
    split at h
    · exact Except.noConfusion h
    next problem hp =>
      split at h
      · exact Except.noConfusion h
      next h2 =>
        simp only [Bool.not_eq_true, Bool.not_eq_true', Bool.or_eq_false_iff,
          Bool.not_eq_false] at h1 h2
        obtain ⟨ht, hm⟩ := h2
        dsimp only at h
        split at h
        · exact Except.noConfusion h
        next htier =>
          split at h
          · exact Except.noConfusion h
          next hmode =>
            split at h
            · exact Except.noConfusion h
            next hstate =>
              split at h
              next e he => exact Except.noConfusion h
              next dev hdev =>
                refine ⟨config.tier.getD "", config.mode.getD "", config.attempt_state.getD "",
                  problem, dev, ?_, ?_, ?_, hp, ?_, ?_, ?_, hdev, ?_⟩
                · cases hct : config.tier with
                  | none => rw [hct] at ht; simp [jsTruthy] at ht
                  | some t => simp [hct]
                · cases hcm : config.mode with
                  | none => rw [hcm] at hm; simp [jsTruthy] at hm
                  | some m => simp [hcm]
                · cases hcs : config.attempt_state with
                  | none => rw [hcs] at h1; simp [jsTruthy] at h1
                  | some s => simp [hcs]
                · simpa using htier
                · simpa using hmode
                · simpa using hstate
                · cases h; rfl

/-- Success inversion for `buildDeveloperPrompts`: both lookups hit and the
result is the two joined content blocks, tier first. -/
lemma buildDeveloperPrompts_ok_elim (env : PromptEnv) (tier mode : String)
    (dev : List String) (h : buildDeveloperPrompts env tier mode = .ok dev) :
    ∃ tierPrompt modePrompt,
      env.TIER_PROMPTS ("tier_" ++ tier ++ "_v1") = some tierPrompt ∧
      env.MODE_PROMPTS ("mode_" ++ mode ++ "_v1") = some modePrompt ∧
      dev = [String.intercalate "\n" (tierPrompt.content.getD []),
             String.intercalate "\n" (modePrompt.content.getD [])] := by
  unfold buildDeveloperPrompts at h
  dsimp only at h
  split at h
  · exact Except.noConfusion h
  next tp htp =>
    split at h
    · exact Except.noConfusion h
    next mp hmp =>
      cases h
      exact ⟨tp, mp, htp, hmp, rfl⟩

/-- `String.intercalate` over an explicit five-element list. -/
lemma intercalate_five (sep a b c d e : String) :
    String.intercalate sep [a, b, c, d, e] =
      a ++ sep ++ b ++ sep ++ c ++ sep ++ d ++ sep ++ e := by
  simp [String.intercalate, String.intercalate.go]

/-- `String.intercalate` over an explicit two-element list. -/
lemma intercalate_two (sep a b : String) :
    String.intercalate sep [a, b] = a ++ sep ++ b := by
  simp [String.intercalate, String.intercalate.go]


/-- Projection of `assembledResult` to its metadata record. -/
lemma assembledResult_metadata (env : PromptEnv) (config : AssembleConfig)
    (tier mode attempt_state : String) (problem : Problem) (dev : List String) :
    (assembledResult env config tier mode attempt_state problem dev).metadata =
      { tier := tier
        mode := mode
        attempt_state := attempt_state
        problem_id := jsOr problem.id "unknown"
        archetype := jsOr problem.archetype "unknown"
        skill_track := jsOr problem.skill_track "unknown"
        student_level := jsOr (config.studentState.bind StudentState.level) "unknown"
        hints_allowed := (getGatedHints tier mode attempt_state (problem.hints.getD [])).length
        answer_included := attempt_state == "review"
        response_template_version := getResponseTemplateVersion attempt_state } := rfl

/-- Projection of `assembledResult` to its components record. -/
lemma assembledResult_components (env : PromptEnv) (config : AssembleConfig)
    (tier mode attempt_state : String) (problem : Problem) (dev : List String) :
    (assembledResult env config tier mode attempt_state problem dev).components =
      { system := buildSystemPrompt env
        developer := dev
        response_template := buildResponseTemplate env.RESPONSE_TEMPLATES attempt_state
        context := buildContextPrompt problem config.studentState attempt_state
          (getGatedHints tier mode attempt_state (problem.hints.getD [])) } := rfl

/-- Contest and elite tiers are always gated down to an empty hint list. -/
lemma getGatedHints_contest_elite (tier mode attempt_state : String)
    (hints : List String) (h : tier = "contest" ∨ tier = "elite") :
    getGatedHints tier mode attempt_state hints = [] := by
  unfold getGatedHints
  rcases h with h | h <;> subst h <;> split <;> simp

/-- A non-active attempt is always gated down to an empty hint list. -/
lemma getGatedHints_not_active (tier mode attempt_state : String)
    (hints : List String) (h : attempt_state ≠ "active") :
    getGatedHints tier mode attempt_state hints = [] := by
  unfold getGatedHints
  simp [h]

/-- A non-empty gated hint list forces an active attempt outside the
contest and elite tiers. -/
lemma getGatedHints_ne_nil (tier mode attempt_state : String) (hints : List String)
    (h : getGatedHints tier mode attempt_state hints ≠ []) :
    attempt_state = "active" ∧ tier ≠ "contest" ∧ tier ≠ "elite" := by
  by_cases hs : attempt_state = "active"
  · by_cases hc : tier = "contest"
    · exact absurd (getGatedHints_contest_elite tier mode attempt_state hints (Or.inl hc)) h
    · by_cases he : tier = "elite"
      · exact absurd (getGatedHints_contest_elite tier mode attempt_state hints (Or.inr he)) h
      · exact ⟨hs, hc, he⟩
  · exact absurd (getGatedHints_not_active tier mode attempt_state hints hs) h

/-- A falsy `attempt_state` fails immediately with the dedicated error. -/
lemma assemblePrompt_missing_attempt_state (env : PromptEnv) (config : AssembleConfig)
    (h : jsTruthy config.attempt_state = false) :
    assemblePrompt env config = .error .missingAttemptState := by
  unfold assemblePrompt
  rw [h]
  rfl

/-- A list prefix stays a prefix after appending on the right. -/
lemma charsStartWith_append (l1 l2 : List Char) :
    charsStartWith (l1 ++ l2) l1 = true := by
  induction l1 with
  | nil => simp [charsStartWith]
  | cons a as ih => simp [charsStartWith, ih]

/-- A string starts with any prefix it was built from by appending. -/
lemma jsStartsWith_append_self (pre rest : String) :
    jsStartsWith (pre ++ rest) pre = true := by
  cases pre with
  | mk d1 =>
    cases rest with
    | mk d2 => exact charsStartWith_append d1 d2

/-- Exactly the hint entries of the AVAILABLE HINTS section begin with
the text `Hint `; counting them recovers the gated hint count. -/
lemma countP_hintsSectionLines (s : String) (hl : List String) :
    (hintsSectionLines s hl).countP (fun line => jsStartsWith line "Hint ") =
      if (s == "active" && hl.length != 0) = true then hl.length else 0 := by
  by_cases hc : (s == "active" && hl.length != 0) = true
  · rw [if_pos hc]
    unfold hintsSectionLines
    rw [if_pos hc]
    rw [List.countP_append, List.countP_append]
    have h1 : List.countP (fun line => jsStartsWith line "Hint ")
        ["AVAILABLE HINTS:", "(Use these ONLY when appropriate per tier rules)"] = 0 := by
      decide
    have h3 : List.countP (fun line => jsStartsWith line "Hint ") [""] = 0 := by decide
    have h2 : List.countP (fun line => jsStartsWith line "Hint ")
        (hl.mapIdx fun index hint =>
          "Hint " ++ toString (index + 1) ++ ": " ++ hint) = hl.length := by
      rw [show hl.length =
          (hl.mapIdx fun index hint =>
            "Hint " ++ toString (index + 1) ++ ": " ++ hint).length from
        List.length_mapIdx.symm]
      rw [List.countP_eq_length]
      intro a ha
      rw [List.mem_mapIdx] at ha
      obtain ⟨i, hi, hfa⟩ := ha
      rw [← hfa]
      rw [String.append_assoc, String.append_assoc]
      exact jsStartsWith_append_self "Hint " (toString (i + 1) ++ (": " ++ hl[i]))
    rw [h1, h2, h3]
    omega
  · rw [if_neg hc]
    unfold hintsSectionLines
    rw [if_neg hc]
    rfl

/-- The pushed context line array is the ordered concatenation of the
layout sections. -/
lemma buildContextLines_sections (problem : Problem) (studentState : Option StudentState)
    (attempt_state : String) (allowedHints : List String) :
    buildContextLines problem studentState attempt_state allowedHints =
      problemHeaderLines ++ statementSectionLines problem ++ archetypeSectionLines problem
        ++ skillTrackSectionLines problem ++ studentSectionLines studentState
        ++ hintsSectionLines attempt_state allowedHints
        ++ answerSectionLines attempt_state problem
        ++ bannerSectionLines attempt_state := rfl

/-! ## Claims -/

/-- C1: for every request accepted by `assemblePrompt` (valid tier, mode and
attempt_state, problem present), `metadata.answer_included` is true if and
only if the request's `attempt_state` equals `review`. -/
theorem answer_included_iff_review (env : PromptEnv) (config : AssembleConfig)
    (r : AssembledPrompt) (h : assemblePrompt env config = .ok r) :
    r.metadata.answer_included = true ↔ config.attempt_state = some "review" := by
  obtain ⟨t, m, s, p, dev, _, _, hsc, _, _, _, _, _, hr⟩ :=
    assemblePrompt_ok_elim env config r h
  subst hr
  rw [assembledResult_metadata, hsc]
  simp

/-- Witness for C1: the sample review request is accepted and reports
`answer_included = true`. -/
theorem answer_included_iff_review_witness :
    assemblePrompt sampleEnv cfgReview = .ok resReview ∧
    (resReview.metadata.answer_included = true ↔ cfgReview.attempt_state = some "review") :=
  ⟨by rfl, answer_included_iff_review sampleEnv cfgReview resReview (by rfl)⟩

/-- C2: in every accepted request the gated hint list is non-empty only for
an active attempt outside contest/elite; for contest or elite tier in active
state the context is the one built with an empty hint list, so it has no
AVAILABLE HINTS section; and in mock mode with contest/elite tier
`hints_allowed` is zero regardless of attempt state. -/
theorem hints_gated_by_tier_and_state (env : PromptEnv) (config : AssembleConfig)
    (r : AssembledPrompt) (h : assemblePrompt env config = .ok r) :
    (r.metadata.hints_allowed ≠ 0 →
        config.attempt_state = some "active" ∧
        config.tier ≠ some "contest" ∧ config.tier ≠ some "elite")
    ∧ (∀ problem, config.problem = some problem →
        (config.tier = some "contest" ∨ config.tier = some "elite") →
        config.attempt_state = some "active" →
        r.components.context =
          buildContextPrompt problem config.studentState "active" [] ∧
        hintsSectionLines "active"
          (getGatedHints r.metadata.tier r.metadata.mode "active"
            (problem.hints.getD [])) = [])
    ∧ ((config.mode = some "mock" ∧
          (config.tier = some "contest" ∨ config.tier = some "elite")) →
        r.metadata.hints_allowed = 0) := by
  obtain ⟨t, m, s, p, dev, htc, hmc, hsc, hpc, _, _, _, _, hr⟩ :=
    assemblePrompt_ok_elim env config r h
  subst hr
  refine ⟨?_, ?_, ?_⟩
  · intro hna
    rw [assembledResult_metadata] at hna
    simp only at hna
    have hne : getGatedHints t m s (p.hints.getD []) ≠ [] := by
      intro he
      rw [he] at hna
      exact hna rfl
    obtain ⟨h1, h2, h3⟩ := getGatedHints_ne_nil t m s (p.hints.getD []) hne
    subst h1
    refine ⟨hsc, ?_, ?_⟩
    · rw [htc]; intro hx; exact h2 (by injection hx)
    · rw [htc]; intro hx; exact h3 (by injection hx)
  · intro problem hpeq htier hstate
    rw [hpc] at hpeq
    have hp : p = problem := by injection hpeq
    subst hp
    have hsa : s = "active" := by
      rw [hsc] at hstate; injection hstate
    subst hsa
    have htce : t = "contest" ∨ t = "elite" := by
      rcases htier with hx | hx
      · rw [htc] at hx; exact Or.inl (by injection hx)
      · rw [htc] at hx; exact Or.inr (by injection hx)
    have hgz : getGatedHints t m "active" (p.hints.getD []) = [] :=
      getGatedHints_contest_elite t m "active" (p.hints.getD []) htce
    constructor
    · rw [assembledResult_components]
      simp only [hgz]
    · rw [assembledResult_metadata]
      simp only [hgz]
      simp [hintsSectionLines,
        getGatedHints_contest_elite t m "active" (p.hints.getD []) htce]
  · rintro ⟨hmock, htier⟩
    have htce : t = "contest" ∨ t = "elite" := by
      rcases htier with hx | hx
      · rw [htc] at hx; exact Or.inl (by injection hx)
      · rw [htc] at hx; exact Or.inr (by injection hx)
    rw [assembledResult_metadata]
    simp only
    rw [getGatedHints_contest_elite t m s (p.hints.getD []) htce]
    rfl

/-- Witness for C2: the active contest request keeps a hint-free context and
the mock elite request reports zero allowed hints. -/
theorem hints_gated_by_tier_and_state_witness :
    assemblePrompt sampleEnv cfgActiveContest = .ok resActiveContest ∧
    resActiveContest.components.context =
      buildContextPrompt sampleProblem cfgActiveContest.studentState "active" [] ∧
    assemblePrompt sampleEnv cfgMockElite = .ok resMockElite ∧
    resMockElite.metadata.hints_allowed = 0 :=
  ⟨by rfl,
   ((hints_gated_by_tier_and_state sampleEnv cfgActiveContest resActiveContest
      (by rfl)).2.1 sampleProblem rfl (Or.inl rfl) rfl).1,
   by rfl,
   (hints_gated_by_tier_and_state sampleEnv cfgMockElite resMockElite
      (by rfl)).2.2 ⟨rfl, Or.inr rfl⟩⟩

/-- C3 (amended): for every accepted request the context block is the ordered
section layout built from the same gated hint list the metadata counts;
`hints_allowed` equals the number of rendered AVAILABLE HINTS entries;
`answer_included` is true exactly when `attempt_state` is review; and the
ANSWER & SOLUTION section is rendered iff `answer_included` holds AND the
problem has a truthy `answer_key` (so in review state without an answer key
the metadata reports the answer as included although none is rendered). -/
theorem metadata_matches_gated_content (env : PromptEnv) (config : AssembleConfig)
    (r : AssembledPrompt) (h : assemblePrompt env config = .ok r)
    (p : Problem) (hp : config.problem = some p) :
    r.components.context = String.intercalate "\n"
      (problemHeaderLines ++ statementSectionLines p ++ archetypeSectionLines p
        ++ skillTrackSectionLines p ++ studentSectionLines config.studentState
        ++ hintsSectionLines r.metadata.attempt_state
             (getGatedHints r.metadata.tier r.metadata.mode r.metadata.attempt_state
               (p.hints.getD []))
        ++ answerSectionLines r.metadata.attempt_state p
        ++ bannerSectionLines r.metadata.attempt_state)
    ∧ r.metadata.hints_allowed =
        (hintsSectionLines r.metadata.attempt_state
          (getGatedHints r.metadata.tier r.metadata.mode r.metadata.attempt_state
            (p.hints.getD []))).countP (fun line => jsStartsWith line "Hint ")
    ∧ (r.metadata.answer_included = true ↔ r.metadata.attempt_state = "review")
    ∧ (answerSectionLines r.metadata.attempt_state p ≠ [] ↔
        (r.metadata.answer_included = true ∧ jsTruthy p.answer_key = true)) := by
  obtain ⟨t, m, s, pr, dev, _, _, _, hpc, _, _, _, _, hr⟩ :=
    assemblePrompt_ok_elim env config r h
  rw [hpc] at hp
  have hpp : p = pr := by
    have hinj : pr = p := by injection hp
    exact hinj.symm
  subst hpp
  subst hr
  simp only [assembledResult_metadata, assembledResult_components]
  refine ⟨?_, ?_, ?_, ?_⟩
  · simp only [buildContextPrompt, buildContextLines_sections]
  · rw [countP_hintsSectionLines]
    by_cases hc : ((s == "active") &&
        ((getGatedHints t m s (p.hints.getD [])).length != 0)) = true
    · rw [if_pos hc]
    · rw [if_neg hc]
      by_cases hsa : s = "active"
      · subst hsa
        simp at hc
        simpa using hc
      · rw [getGatedHints_not_active t m s (p.hints.getD []) hsa]
        rfl
  · simp [beq_iff_eq]
  · by_cases hrev : (s == "review") = true
    · by_cases hak : jsTruthy p.answer_key = true
      · simp [answerSectionLines, hrev, hak]
      · simp [answerSectionLines, hrev, hak]
    · simp [answerSectionLines, hrev]

/-- Witness for C3: on the active warmup request, the hint count in the
metadata matches the rendered hint lines and answer gating matches review. -/
theorem metadata_matches_gated_content_witness :
    resActiveWarmup.metadata.hints_allowed =
      (hintsSectionLines resActiveWarmup.metadata.attempt_state
        (getGatedHints resActiveWarmup.metadata.tier resActiveWarmup.metadata.mode
          resActiveWarmup.metadata.attempt_state (sampleProblem.hints.getD []))).countP
        (fun line => jsStartsWith line "Hint ") ∧
    (resActiveWarmup.metadata.answer_included = true ↔
      resActiveWarmup.metadata.attempt_state = "review") :=
  ⟨(metadata_matches_gated_content sampleEnv cfgActiveWarmup resActiveWarmup (by rfl)
      sampleProblem rfl).2.1,
   (metadata_matches_gated_content sampleEnv cfgActiveWarmup resActiveWarmup (by rfl)
      sampleProblem rfl).2.2.1⟩

set_option maxRecDepth 8192 in
/-- Counterexample for C3 as frozen: a review request without an answer key
is accepted with `answer_included = true`, yet its context block contains no
ANSWER & SOLUTION section. -/
theorem metadata_divergence_counterexample :
    assemblePrompt sampleEnv cfgReviewNoKey = .ok resReviewNoKey ∧
    resReviewNoKey.metadata.answer_included = true ∧
    jsIncludes resReviewNoKey.components.context "ANSWER & SOLUTION" = false :=
  ⟨by rfl, by rfl, by decide⟩

/-- C4: for every valid attempt_state whose response-template entry is
missing, `buildResponseTemplate` returns the joined active template when
available and otherwise the built-in safe fallback, never the review
template; the request is not failed. -/
theorem response_template_safe_fallback (templates : ResponseTemplates) (s : String)
    (hvalid : validStates.contains s = true)
    (hmiss : templateEntryFor templates s = none) :
    buildResponseTemplate templates s =
      String.intercalate "\n" (templates.active_v1.getD safeFallbackTemplate) := by
  have hs : s = "active" ∨ s = "submitted" ∨ s = "review" := by
    simpa [validStates] using hvalid
  rcases hs with h | h | h <;> subst h <;>
    simp [templateEntryFor] at hmiss <;>
    simp [buildResponseTemplate, hmiss]

/-- Witness for C4: with the submitted template missing, the submitted state
falls back to the active template text. -/
theorem response_template_safe_fallback_witness :
    validStates.contains "submitted" = true ∧
    templateEntryFor templatesNoSubmitted "submitted" = none ∧
    buildResponseTemplate templatesNoSubmitted "submitted" =
      String.intercalate "\n" (templatesNoSubmitted.active_v1.getD safeFallbackTemplate) :=
  ⟨by decide, by decide,
   response_template_safe_fallback templatesNoSubmitted "submitted" (by decide) (by decide)⟩

/-- C5 (amended): a missing attempt_state fails first with the dedicated
error; every request with an invalid attempt_state fails validation with the
same error under any policy tables, so no policy lookup influences the
outcome; but the membership check on a present attempt_state runs after the
tier and mode checks, so those may be named instead. -/
theorem attempt_state_validation_order :
    (∀ env config, jsTruthy config.attempt_state = false →
        assemblePrompt env config = .error .missingAttemptState)
    ∧ (∀ env env2 config s, config.attempt_state = some s →
        validStates.contains s = false →
        (∃ e, assemblePrompt env config = .error e ∧ e.isValidationError = true) ∧
        assemblePrompt env config = assemblePrompt env2 config) := by
  constructor
  · exact assemblePrompt_missing_attempt_state
  · intro env env2 config s hsc hinv
    suffices hsuff : ∃ e, e.isValidationError = true ∧
        ∀ envx : PromptEnv, assemblePrompt envx config = .error e by
      obtain ⟨e, hv, hall⟩ := hsuff
      exact ⟨⟨e, hall env, hv⟩, by rw [hall env, hall env2]⟩
    by_cases h0 : jsTruthy config.attempt_state = true
    case neg =>
      exact ⟨.missingAttemptState, rfl, fun envx =>
        assemblePrompt_missing_attempt_state envx config (by simpa using h0)⟩
    case pos =>
      cases hp : config.problem with
      | none =>
        exact ⟨.missingParams, rfl, fun envx => by simp [assemblePrompt, h0, hp]⟩
      | some p =>
        by_cases h1 : (!(jsTruthy config.tier) || !(jsTruthy config.mode)) = true
        · exact ⟨.missingParams, rfl, fun envx => by simp [assemblePrompt, h0, hp, h1]⟩
        · rw [Bool.not_eq_true] at h1
          by_cases h2 : validTiers.contains (config.tier.getD "") = true
          case neg =>
            rw [Bool.not_eq_true] at h2
            have h2m : config.tier.getD "" ∉ validTiers := by simpa using h2
            exact ⟨.invalidTier (config.tier.getD ""), rfl, fun envx => by
              simp [assemblePrompt, h0, hp, h1, h2m]⟩
          case pos =>
            have h2m : config.tier.getD "" ∈ validTiers := by simpa using h2
            by_cases h3 : validModes.contains (config.mode.getD "") = true
            case neg =>
              rw [Bool.not_eq_true] at h3
              have h3m : config.mode.getD "" ∉ validModes := by simpa using h3
              exact ⟨.invalidMode (config.mode.getD ""), rfl, fun envx => by
                simp [assemblePrompt, h0, hp, h1, h2m, h3m]⟩
            case pos =>
              have h3m : config.mode.getD "" ∈ validModes := by simpa using h3
              have h4 : validStates.contains (config.attempt_state.getD "") = false := by
                rw [hsc]; simpa using hinv
              have h4m : config.attempt_state.getD "" ∉ validStates := by simpa using h4
              exact ⟨.invalidAttemptState (config.attempt_state.getD ""), rfl, fun envx => by
                simp [assemblePrompt, h0, hp, h1, h2m, h3m, h4m]⟩

/-- Witness for C5: an empty request fails on attempt_state first, and a
request with bad attempt_state and bad tier fails identically under two
different policy environments. -/
theorem attempt_state_validation_order_witness :
    jsTruthy (AssembleConfig.mk none none none none none).attempt_state = false ∧
    assemblePrompt sampleEnv (AssembleConfig.mk none none none none none) =
      .error .missingAttemptState ∧
    assemblePrompt sampleEnv cfgBadStateBadTier =
      assemblePrompt emptyTablesEnv cfgBadStateBadTier :=
  ⟨rfl,
   attempt_state_validation_order.1 sampleEnv (AssembleConfig.mk none none none none none) rfl,
   (attempt_state_validation_order.2 sampleEnv emptyTablesEnv cfgBadStateBadTier "grading"
      rfl (by decide)).2⟩

/-- Counterexample for C5 as frozen: with attempt_state "grading" (invalid)
and tier "hard" (invalid) the thrown error names the tier, not
attempt_state. -/
theorem attempt_state_first_counterexample :
    assemblePrompt sampleEnv cfgBadStateBadTier = .error (.invalidTier "hard") ∧
    (AssembleError.invalidTier "hard").message =
      "Invalid tier: hard. Must be one of: warmup, standard, challenge, contest, elite" ∧
    AssembleError.invalidTier "hard" ≠ AssembleError.invalidAttemptState "grading" ∧
    (AssembleError.invalidTier "hard").message ≠
      (AssembleError.invalidAttemptState "grading").message := by
  refine ⟨by rfl, by rfl, by decide, by decide⟩

/-- C6: validating any accepted assembly result reports neither CRITICAL
finding, and validating any result whose metadata pairs
`answer_included = true` with attempt_state "active" reports the CRITICAL
answer-inclusion finding and sets `valid = false`. -/
theorem validator_self_consistency :
    (∀ env config r, assemblePrompt env config = .ok r →
        "CRITICAL: Contest/Elite tier has hints during active attempt" ∉
          (validatePromptAssembly r).errors ∧
        "CRITICAL: Answer included during non-review state" ∉
          (validatePromptAssembly r).errors)
    ∧ (∀ a : AssembledPrompt, a.metadata.attempt_state = "active" →
        a.metadata.answer_included = true →
        "CRITICAL: Answer included during non-review state" ∈
          (validatePromptAssembly a).errors ∧
        (validatePromptAssembly a).valid = false) := by
  constructor
  · intro env config r h
    obtain ⟨t, m, s, p, dev, _, _, _, _, _, _, _, _, hr⟩ :=
      assemblePrompt_ok_elim env config r h
    subst hr
    have hg4 : ((t == "contest" || t == "elite") && (s == "active") &&
        ((getGatedHints t m s (p.hints.getD [])).length != 0)) = false := by
      by_cases hce : t = "contest" ∨ t = "elite"
      · rw [getGatedHints_contest_elite t m s (p.hints.getD []) hce]
        simp
      · push_neg at hce
        simp [hce.1, hce.2]
    have hg5 : ((s != "review") && (s == "review")) = false := by
      cases hb : s == "review" <;> simp [bne, hb]
    constructor
    · simp only [validatePromptAssembly, assembledResult_metadata,
        assembledResult_components]
      simp only [hg4]
      simp [List.mem_append]
    · simp only [validatePromptAssembly, assembledResult_metadata,
        assembledResult_components]
      simp only [hg4, hg5]
      simp [List.mem_append]
  · intro a hstate hanswer
    have hg5 : ((a.metadata.attempt_state != "review") && a.metadata.answer_included) = true := by
      rw [hstate, hanswer]
      rfl
    constructor
    · simp [validatePromptAssembly, hg5, List.mem_append]
    · simp [validatePromptAssembly, hg5]

/-- Witness for C6: the accepted contest request draws no CRITICAL finding,
and the hand-built leaky result draws the answer-inclusion CRITICAL. -/
theorem validator_self_consistency_witness :
    ("CRITICAL: Contest/Elite tier has hints during active attempt" ∉
      (validatePromptAssembly resActiveContest).errors) ∧
    ("CRITICAL: Answer included during non-review state" ∈
      (validatePromptAssembly handBuiltLeakyPrompt).errors) ∧
    (validatePromptAssembly handBuiltLeakyPrompt).valid = false :=
  ⟨(validator_self_consistency.1 sampleEnv cfgActiveContest resActiveContest (by rfl)).1,
   (validator_self_consistency.2 handBuiltLeakyPrompt rfl rfl).1,
   (validator_self_consistency.2 handBuiltLeakyPrompt rfl rfl).2⟩

/-- C7: every accepted result flattens to system policy, tier policy, mode
policy, response template and context in that exact order, and its chat
message sequence carries the policy layers under the system role and the
context block under the user role. -/
theorem flattened_order_and_roles (env : PromptEnv) (config : AssembleConfig)
    (r : AssembledPrompt) (h : assemblePrompt env config = .ok r) :
    ∃ tierText modeText,
      r.components.developer = [tierText, modeText] ∧
      r.messages.system =
        r.components.system ++ "\n\n" ++ tierText ++ "\n\n" ++ modeText ++ "\n\n" ++
          r.components.response_template ++ "\n\n" ++ r.components.context ∧
      r.messages.role = "system" ∧
      r.chat_messages =
        [{ role := "system", content := r.components.system },
         { role := "system", content := tierText ++ "\n\n" ++ modeText },
         { role := "system", content := r.components.response_template },
         { role := "user", content := r.components.context }] := by
  obtain ⟨t, m, s, p, dev, _, _, _, _, _, _, _, hdev, hr⟩ :=
    assemblePrompt_ok_elim env config r h
  obtain ⟨tp, mp, _, _, hdshape⟩ := buildDeveloperPrompts_ok_elim env t m dev hdev
  subst hr hdshape
  refine ⟨_, _, rfl, ?_, rfl, ?_⟩
  · simp only [assembledResult, List.cons_append, List.nil_append]
    rw [intercalate_five]
  · simp only [assembledResult]
    rw [intercalate_two]

/-- Witness for C7: the flattened instruction string of the active warmup
request is the five layers joined in order. -/
theorem flattened_order_and_roles_witness :
    resActiveWarmup.messages.system =
      resActiveWarmup.components.system ++ "\n\n" ++ "Warmup tier rules." ++ "\n\n" ++
        "Bootcamp mode rules." ++ "\n\n" ++ resActiveWarmup.components.response_template ++
        "\n\n" ++ resActiveWarmup.components.context := by
  obtain ⟨a, b, hdev, hsys, _, _⟩ :=
    flattened_order_and_roles sampleEnv cfgActiveWarmup resActiveWarmup (by rfl)
  have hconc : resActiveWarmup.components.developer =
      ["Warmup tier rules.", "Bootcamp mode rules."] := by rfl
  rw [hconc] at hdev
  injection hdev with h1 hrest
  injection hrest with h2 hnil
  subst h1
  subst h2
  exact hsys

/-- C8 (amended): every accepted result's context block is the fixed-order
layout: header, problem statement if present, archetype label if present,
skill track if present, student context if present, gated hints only for an
active attempt with a non-empty gated list, answer and solution only in
review with a truthy answer key, then the trailing attempt-state banner,
which has exactly three fixed wordings over the valid states. -/
theorem context_block_fixed_order (env : PromptEnv) (config : AssembleConfig)
    (r : AssembledPrompt) (h : assemblePrompt env config = .ok r)
    (p : Problem) (hp : config.problem = some p) :
    r.components.context = String.intercalate "\n"
      (problemHeaderLines ++ statementSectionLines p ++ archetypeSectionLines p
        ++ skillTrackSectionLines p ++ studentSectionLines config.studentState
        ++ hintsSectionLines r.metadata.attempt_state
             (getGatedHints r.metadata.tier r.metadata.mode r.metadata.attempt_state
               (p.hints.getD []))
        ++ answerSectionLines r.metadata.attempt_state p
        ++ bannerSectionLines r.metadata.attempt_state)
    ∧ validStates.contains r.metadata.attempt_state = true
    ∧ bannerSectionLines "active" =
        ["ATTEMPT STATE: ACTIVE",
         "(Student is actively working on this problem - follow tier rules strictly)"]
    ∧ bannerSectionLines "submitted" =
        ["ATTEMPT STATE: SUBMITTED",
         "(Student has submitted - acknowledge briefly; wait for review mode for full explanation)"]
    ∧ bannerSectionLines "review" =
        ["ATTEMPT STATE: REVIEW",
         "(Review mode - provide complete explanation with answer and solution)"] := by
  obtain ⟨t, m, s, pr, dev, _, _, _, hpc, _, _, hsv, _, hr⟩ :=
    assemblePrompt_ok_elim env config r h
  rw [hpc] at hp
  have hpp : p = pr := by
    have hinj : pr = p := by injection hp
    exact hinj.symm
  subst hpp
  subst hr
  simp only [assembledResult_metadata, assembledResult_components]
  refine ⟨?_, hsv, by decide, by decide, by decide⟩
  simp only [buildContextPrompt, buildContextLines_sections]

/-- Witness for C8: the active warmup request's context block matches the
section layout. -/
theorem context_block_fixed_order_witness :
    resActiveWarmup.components.context = String.intercalate "\n"
      (problemHeaderLines ++ statementSectionLines sampleProblem
        ++ archetypeSectionLines sampleProblem ++ skillTrackSectionLines sampleProblem
        ++ studentSectionLines cfgActiveWarmup.studentState
        ++ hintsSectionLines resActiveWarmup.metadata.attempt_state
             (getGatedHints resActiveWarmup.metadata.tier resActiveWarmup.metadata.mode
               resActiveWarmup.metadata.attempt_state (sampleProblem.hints.getD []))
        ++ answerSectionLines resActiveWarmup.metadata.attempt_state sampleProblem
        ++ bannerSectionLines resActiveWarmup.metadata.attempt_state) :=
  (context_block_fixed_order sampleEnv cfgActiveWarmup resActiveWarmup (by rfl)
    sampleProblem rfl).1

set_option maxRecDepth 8192 in
/-- Counterexample for C8 as frozen: a problem without statement and
archetype is accepted, and its context block contains neither a Problem
Statement section nor an Internal Archetype line. -/
theorem context_always_sections_counterexample :
    assemblePrompt sampleEnv cfgBareProblem = .ok resBareProblem ∧
    jsIncludes resBareProblem.components.context "Problem Statement:" = false ∧
    jsIncludes resBareProblem.components.context "Internal Archetype:" = false :=
  ⟨by rfl, by decide, by decide⟩

/-- C9: for every validated request whose tier or mode key has no policy
entry, `assemblePrompt` fails with the corresponding configuration error;
configuration errors are disjoint from validation errors and their exact
messages never coincide with any validation error message, so the caller can
distinguish the two failure kinds. -/
theorem config_error_distinct_from_validation :
    (∀ env config tier mode s problem,
        config.tier = some tier → config.mode = some mode →
        config.attempt_state = some s → config.problem = some problem →
        validTiers.contains tier = true → validModes.contains mode = true →
        validStates.contains s = true →
        (env.TIER_PROMPTS ("tier_" ++ tier ++ "_v1") = none →
          assemblePrompt env config =
            .error (.tierPromptNotFound ("tier_" ++ tier ++ "_v1"))) ∧
        (∀ tierPrompt, env.TIER_PROMPTS ("tier_" ++ tier ++ "_v1") = some tierPrompt →
          env.MODE_PROMPTS ("mode_" ++ mode ++ "_v1") = none →
          assemblePrompt env config =
            .error (.modePromptNotFound ("mode_" ++ mode ++ "_v1"))))
    ∧ (∀ e : AssembleError, e.isConfigurationError = true → e.isValidationError = false)
    ∧ (∀ e e2 : AssembleError, e.isConfigurationError = true →
        e2.isValidationError = true → e.message ≠ e2.message) := by
  refine ⟨?_, ?_, ?_⟩
  · intro env config tier mode s problem htc hmc hsc hpc hvt hvm hvs
    have htt : jsTruthy (some tier) = true := by
      have h5 : tier = "warmup" ∨ tier = "standard" ∨ tier = "challenge" ∨
          tier = "contest" ∨ tier = "elite" := by simpa [validTiers] using hvt
      rcases h5 with h | h | h | h | h <;> subst h <;> rfl
    have hmt : jsTruthy (some mode) = true := by
      have h3 : mode = "bootcamp" ∨ mode = "mixed" ∨ mode = "mock" := by
        simpa [validModes] using hvm
      rcases h3 with h | h | h <;> subst h <;> rfl
    have hst : jsTruthy (some s) = true := by
      have h3 : s = "active" ∨ s = "submitted" ∨ s = "review" := by
        simpa [validStates] using hvs
      rcases h3 with h | h | h <;> subst h <;> rfl
    have hvtm : tier ∈ validTiers := by simpa using hvt
    have hvmm : mode ∈ validModes := by simpa using hvm
    have hvsm : s ∈ validStates := by simpa using hvs
    constructor
    · intro hnone
      simp [assemblePrompt, hst, htt, hmt, htc, hmc, hsc, hpc, hvtm, hvmm, hvsm,
        buildDeveloperPrompts, hnone]
    · intro tierPrompt hsome hnone
      simp [assemblePrompt, hst, htt, hmt, htc, hmc, hsc, hpc, hvtm, hvmm, hvsm,
        buildDeveloperPrompts, hsome, hnone]
  · intro e he
    cases e <;> simp_all [AssembleError.isConfigurationError, AssembleError.isValidationError]
  · intro e e2 he he2 heq
    cases e with
    | missingAttemptState => simp [AssembleError.isConfigurationError] at he
    | missingParams => simp [AssembleError.isConfigurationError] at he
    | invalidTier t => simp [AssembleError.isConfigurationError] at he
    | invalidMode m0 => simp [AssembleError.isConfigurationError] at he
    | invalidAttemptState s0 => simp [AssembleError.isConfigurationError] at he
    | tierPromptNotFound k =>
      have hd := congrArg String.data heq
      cases e2 with
      | tierPromptNotFound k2 => simp [AssembleError.isValidationError] at he2
      | modePromptNotFound k2 => simp [AssembleError.isValidationError] at he2
      | missingAttemptState =>
        simp [AssembleError.message, String.data, String.append] at hd
      | missingParams =>
        simp [AssembleError.message, String.data, String.append] at hd
      | invalidTier t =>
        simp [AssembleError.message, String.data, String.append] at hd
      | invalidMode m0 =>
        simp [AssembleError.message, String.data, String.append] at hd
      | invalidAttemptState s0 =>
        simp [AssembleError.message, String.data, String.append] at hd
    | modePromptNotFound k =>
      have hd := congrArg String.data heq
      cases e2 with
      | tierPromptNotFound k2 => simp [AssembleError.isValidationError] at he2
      | modePromptNotFound k2 => simp [AssembleError.isValidationError] at he2
      | missingAttemptState =>
        simp [AssembleError.message, String.data, String.append] at hd
      | missingParams =>
        simp [AssembleError.message, String.data, String.append] at hd
      | invalidTier t =>
        simp [AssembleError.message, String.data, String.append] at hd
      | invalidMode m0 =>
        simp [AssembleError.message, String.data, String.append] at hd
      | invalidAttemptState s0 =>
        simp [AssembleError.message, String.data, String.append] at hd

/-- Witness for C9: a valid warmup request against empty policy tables fails
with the tier configuration error. -/
theorem config_error_distinct_from_validation_witness :
    assemblePrompt emptyTablesEnv cfgActiveWarmup =
      .error (.tierPromptNotFound "tier_warmup_v1") := by
  have h := (config_error_distinct_from_validation.1 emptyTablesEnv cfgActiveWarmup
    "warmup" "bootcamp" "active" sampleProblem rfl rfl rfl rfl
    (by decide) (by decide) (by decide)).1 rfl
  have hkey : ("tier_" ++ "warmup" ++ "_v1") = "tier_warmup_v1" := by decide
  rw [hkey] at h
  exact h

/-- C10: `getGatedHints` returns either the entire input hint list or the
empty list, never a proper non-empty subset; and for an active attempt on a
tier other than contest and elite it returns the whole list. -/
theorem gated_hints_all_or_nothing (tier mode attempt_state : String)
    (hints : List String) :
    (getGatedHints tier mode attempt_state hints = hints ∨
      getGatedHints tier mode attempt_state hints = [])
    ∧ (attempt_state = "active" → tier ≠ "contest" → tier ≠ "elite" →
        getGatedHints tier mode attempt_state hints = hints) := by
  constructor
  · unfold getGatedHints
    split
    · exact Or.inr rfl
    · split
      · exact Or.inr rfl
      · split
        · exact Or.inr rfl
        · exact Or.inl rfl
  · intro hs h1 h2
    subst hs
    simp [getGatedHints, h1, h2]

/-- Witness for C10: an active warmup request passes its hint list through
unchanged. -/
theorem gated_hints_all_or_nothing_witness :
    getGatedHints "warmup" "bootcamp" "active" ["One hint."] = ["One hint."] :=
  (gated_hints_all_or_nothing "warmup" "bootcamp" "active" ["One hint."]).2
    rfl (by decide) (by decide)

end LogicPals
